import Mathlib

/-!
Verification development for the x86/Linux topology-construction module
(`src/x86/linux/init.c`).  The C code is shallowly embedded: 32-bit unsigned
arithmetic is modelled as `Nat` with explicit `% 2^32` where the C code can
wrap, the two scans over the sorted descriptor array are modelled as folds,
and the fallible construction (`cpuinfo_x86_linux_init`) is modelled as a
function over an oracle describing which external calls (affinity syscalls,
allocations) succeed, an explicit list of OS cpu ids, and an explicit
process-global state.
-/

namespace Cpuinfo

/-- Value of `UINT32_MAX`, the out-of-range sentinel used by both scans. -/
def UINT32_MAX : Nat := 2 ^ 32 - 1

/-- Embedding of `bit_mask`: `(UINT32_C(1) << bits) - UINT32_C(1)` in
32-bit unsigned arithmetic (the subtraction may wrap when the shift
overflows, hence the addition of `2^32 - 1` modulo `2^32`). -/
def bit_mask (bits : Nat) : Nat :=
  ((2 ^ bits) % 2 ^ 32 + (2 ^ 32 - 1)) % 2 ^ 32

/-- Bitwise complement restricted to 32 bits, the `~` of the C code applied
to a `uint32_t` value. -/
def not32 (x : Nat) : Nat := UINT32_MAX ^^^ x

/-- The recurring masking pattern `id & ~(bit_mask(len) << off)` of the C
code (the shifted mask is a `uint32_t`, hence the `% 2^32`). -/
def mask_off (id len off : Nat) : Nat :=
  id &&& not32 ((bit_mask len <<< off) % 2 ^ 32)

/-- Per-level cache description inside `struct cpuinfo_x86_processor`. -/
structure CacheInfo where
  size : Nat
  associativity : Nat
  sets : Nat
  partitions : Nat
  line_size : Nat
  flags : Nat
  apic_bits : Nat
deriving DecidableEq

/-- The `topology` member of `struct cpuinfo_x86_processor`. -/
structure X86Topology where
  apic_id : Nat
  thread_bits_offset : Nat
  thread_bits_length : Nat
  core_bits_offset : Nat
  core_bits_length : Nat
deriving DecidableEq

/-- The `cache` member of `struct cpuinfo_x86_processor`. -/
structure X86Caches where
  l1i : CacheInfo
  l1d : CacheInfo
  l2 : CacheInfo
  l3 : CacheInfo
  l4 : CacheInfo
deriving DecidableEq

/-- Embedding of `struct cpuinfo_x86_processor` (the fields the module
reads); enumerated tags such as vendor and microarchitecture are modelled
as plain numbers. -/
structure X86Processor where
  topology : X86Topology
  cache : X86Caches
  vendor : Nat
  uarch : Nat
  cpuid : Nat
  brand_string : String
  linux_id : Nat
deriving DecidableEq

/-- Derived core-grouping id:
`apic_id & ~(bit_mask(thread_bits_length) << thread_bits_offset)`. -/
def core_id_of (p : X86Processor) : Nat :=
  mask_off p.topology.apic_id p.topology.thread_bits_length p.topology.thread_bits_offset

/-- Derived package-grouping id:
`core_id & ~(bit_mask(core_bits_length) << core_bits_offset)`. -/
def package_id_of (p : X86Processor) : Nat :=
  mask_off (core_id_of p) p.topology.core_bits_length p.topology.core_bits_offset

/-- Derived cache-sharing id: `apic_id & ~bit_mask(apic_bits)`. -/
def cache_group_id (apic bits : Nat) : Nat := apic &&& not32 (bit_mask bits)

/-- Local state of the counting pass `cpuinfo_x86_count_objects`: the seven
counters and the seven `last ... id` sentinels. -/
structure CountState where
  cores_count : Nat
  packages_count : Nat
  l1i_count : Nat
  l1d_count : Nat
  l2_count : Nat
  l3_count : Nat
  l4_count : Nat
  last_core_id : Nat
  last_package_id : Nat
  last_l1i_id : Nat
  last_l1d_id : Nat
  last_l2_id : Nat
  last_l3_id : Nat
  last_l4_id : Nat
deriving DecidableEq

/-- Initial counting state: all counters zero, all sentinels `UINT32_MAX`. -/
def initCountState : CountState :=
  ⟨0, 0, 0, 0, 0, 0, 0,
   UINT32_MAX, UINT32_MAX, UINT32_MAX, UINT32_MAX, UINT32_MAX, UINT32_MAX, UINT32_MAX⟩

/-- The core statement of the counting loop: bump `cores_count` whenever
the derived core id differs from the stored `last_core_id`. -/
def countCores (s : CountState) (core_id : Nat) : CountState :=
  if core_id ≠ s.last_core_id then
    { s with last_core_id := core_id, cores_count := s.cores_count + 1 }
  else s

/-- The package statement of the counting loop. -/
def countPackages (s : CountState) (package_id : Nat) : CountState :=
  if package_id ≠ s.last_package_id then
    { s with last_package_id := package_id, packages_count := s.packages_count + 1 }
  else s

/-- The L1I statement of the counting loop.  Note that, exactly as in the
source, there is no `else` arm: a zero cache size leaves the sentinel
untouched (it is NOT reset to `UINT32_MAX`). -/
def countL1i (s : CountState) (apic : Nat) (c : CacheInfo) : CountState :=
  if c.size ≠ 0 then
    let id := cache_group_id apic c.apic_bits
    if id ≠ s.last_l1i_id then { s with last_l1i_id := id, l1i_count := s.l1i_count + 1 }
    else s
  else s

/-- The L1D statement of the counting loop (no `else` arm, as in the source). -/
def countL1d (s : CountState) (apic : Nat) (c : CacheInfo) : CountState :=
  if c.size ≠ 0 then
    let id := cache_group_id apic c.apic_bits
    if id ≠ s.last_l1d_id then { s with last_l1d_id := id, l1d_count := s.l1d_count + 1 }
    else s
  else s

/-- The L2 statement of the counting loop (no `else` arm, as in the source). -/
def countL2 (s : CountState) (apic : Nat) (c : CacheInfo) : CountState :=
  if c.size ≠ 0 then
    let id := cache_group_id apic c.apic_bits
    if id ≠ s.last_l2_id then { s with last_l2_id := id, l2_count := s.l2_count + 1 }
    else s
  else s

/-- The L3 statement of the counting loop (no `else` arm, as in the source). -/
def countL3 (s : CountState) (apic : Nat) (c : CacheInfo) : CountState :=
  if c.size ≠ 0 then
    let id := cache_group_id apic c.apic_bits
    if id ≠ s.last_l3_id then { s with last_l3_id := id, l3_count := s.l3_count + 1 }
    else s
  else s

/-- The L4 statement of the counting loop (no `else` arm, as in the source). -/
def countL4 (s : CountState) (apic : Nat) (c : CacheInfo) : CountState :=
  if c.size ≠ 0 then
    let id := cache_group_id apic c.apic_bits
    if id ≠ s.last_l4_id then { s with last_l4_id := id, l4_count := s.l4_count + 1 }
    else s
  else s

/-- One iteration of the loop body of `cpuinfo_x86_count_objects`: the
seven statements of the source's loop body in order. -/
def countStep (s : CountState) (p : X86Processor) : CountState :=
  let apic_id := p.topology.apic_id
  let core_id := mask_off apic_id p.topology.thread_bits_length p.topology.thread_bits_offset
  let s := countCores s core_id
  let package_id := mask_off core_id p.topology.core_bits_length p.topology.core_bits_offset
  let s := countPackages s package_id
  let s := countL1i s apic_id p.cache.l1i
  let s := countL1d s apic_id p.cache.l1d
  let s := countL2 s apic_id p.cache.l2
  let s := countL3 s apic_id p.cache.l3
  let s := countL4 s apic_id p.cache.l4
  s

/-- Embedding of `cpuinfo_x86_count_objects`: a single forward scan. -/
def cpuinfo_x86_count_objects (ps : List X86Processor) : CountState :=
  ps.foldl countStep initCountState

/-- Modelled from the spec (section 4.4), for comparison with the code
above: the counting step as the spec words it, where a zero cache size
RESETS the level's sentinel to the out-of-range value.  Only the L1D level
is spelled out, which suffices for the comparison. -/
def countStepSpecL1d (s : Nat × Nat) (p : X86Processor) : Nat × Nat :=
  if p.cache.l1d.size ≠ 0 then
    let l1d_id := cache_group_id p.topology.apic_id p.cache.l1d.apic_bits
    if l1d_id ≠ s.2 then (s.1 + 1, l1d_id) else s
  else (s.1, UINT32_MAX)

/-- Modelled from the spec (section 4.4): the L1D cache count with the
sentinel reset the spec prescribes. -/
def countL1dSpec (ps : List X86Processor) : Nat :=
  (ps.foldl countStepSpecL1d (0, UINT32_MAX)).1

/-- One record of the `cores` array (`struct cpuinfo_core`); the owning
package is a back-reference modelled as an index into `packages`. -/
structure BuildCore where
  processor_start : Nat
  processor_count : Nat
  core_id : Nat
  package : Nat
  vendor : Nat
  uarch : Nat
  cpuid : Nat
deriving DecidableEq

/-- One record of the `packages` array (`struct cpuinfo_package`). -/
structure BuildPackage where
  processor_start : Nat
  processor_count : Nat
  core_start : Nat
  core_count : Nat
  name : String
deriving DecidableEq

/-- The zeroed package record a fresh `calloc` slot holds before the build
loop touches it. -/
def zeroPackage : BuildPackage := ⟨0, 0, 0, 0, ""⟩

/-- One record of a per-level cache array (`struct cpuinfo_cache`). -/
structure BuildCache where
  size : Nat
  associativity : Nat
  sets : Nat
  partitions : Nat
  line_size : Nat
  flags : Nat
  processor_start : Nat
  processor_count : Nat
deriving DecidableEq

/-- One record of the `processors` array (`struct cpuinfo_processor`).
Core/package/cache references are modelled as indices; a cache reference is
`none` when the field still holds the `calloc` NULL, and `some j` when the
code stored `&cache_array[j]` (the stored `j` may be out of range, exactly
as the C pointer may dangle). -/
structure PubProcessor where
  smt_id : Nat
  core : Nat
  package : Nat
  linux_id : Nat
  apic_id : Nat
  cache_l1i : Option Nat
  cache_l1d : Option Nat
  cache_l2 : Option Nat
  cache_l3 : Option Nat
  cache_l4 : Option Nat
deriving DecidableEq

/-- Replace the last element of a list in place (the build loop only ever
writes `array[index]` where `index` is the slot of the most recently
initialized record). -/
def updateLast (f : α → α) : List α → List α
  | [] => []
  | [x] => [f x]
  | x :: y :: t => x :: updateLast f (y :: t)

/-- Per-cache-level state of the build loop: the running `uint32_t` index,
the `last ... id` sentinel, and the records written so far (record `j` of
the list is the one initialized at array slot `j`). -/
structure CacheLevelState where
  index : Nat
  last_id : Nat
  records : List BuildCache
deriving DecidableEq

/-- One cache block of the build loop, e.g. for L1D:
```
if (x86_processors[i].cache.l1d.size != 0) {
    const uint32_t l1d_id = apic_id & ~bit_mask(apic_bits);
    processors[i].cache.l1d = &l1d[l1d_index];
    if (l1d_id != last_l1d_id) { last_l1d_id = l1d_id; l1d[++l1d_index] = {...}; }
    else { l1d[l1d_index].processor_count += 1; }
} else { last_l1d_id = UINT32_MAX; }
```
Note the processor's cache reference is assigned BEFORE the index is
possibly incremented, exactly as in the source; `ref` is the reference the
processor record holds on entry to the block. -/
def cacheStep (i apic : Nat) (c : CacheInfo) (s : CacheLevelState) (ref : Option Nat) :
    CacheLevelState × Option Nat :=
  if c.size ≠ 0 then
    let id := cache_group_id apic c.apic_bits
    let ref := some s.index
    if id ≠ s.last_id then
      (⟨(s.index + 1) % 2 ^ 32, id,
        s.records ++ [⟨c.size, c.associativity, c.sets, c.partitions, c.line_size, c.flags, i, 1⟩]⟩,
       ref)
    else
      (⟨s.index, s.last_id,
        updateLast (fun r => { r with processor_count := r.processor_count + 1 }) s.records⟩,
       ref)
  else
    (⟨s.index, UINT32_MAX, s.records⟩, ref)

/-- State of the build loop of `cpuinfo_x86_linux_init` (lines 264-470).
The `cores`, `packages` and cache arrays are modelled as the lists of
records written so far (indices advance one slot at a time starting from
the wrap of `UINT32_MAX`, so slot `j` of the C array is element `j` of the
list), and the two lookup tables as the lists of `(index, value)` stores
performed into them. -/
structure BuildState where
  core_index : Nat
  package_index : Nat
  last_core_id : Nat
  last_package_id : Nat
  processors : List PubProcessor
  cores : List BuildCore
  packages : List BuildPackage
  l1i : CacheLevelState
  l1d : CacheLevelState
  l2 : CacheLevelState
  l3 : CacheLevelState
  l4 : CacheLevelState
  cpu_to_processor_stores : List (Nat × Nat)
  cpu_to_core_stores : List (Nat × Nat)
deriving DecidableEq

/-- Initial build state (lines 264-268 of the source). -/
def initBuildState : BuildState :=
  ⟨UINT32_MAX, UINT32_MAX, UINT32_MAX, UINT32_MAX, [], [], [],
   ⟨UINT32_MAX, UINT32_MAX, []⟩, ⟨UINT32_MAX, UINT32_MAX, []⟩,
   ⟨UINT32_MAX, UINT32_MAX, []⟩, ⟨UINT32_MAX, UINT32_MAX, []⟩,
   ⟨UINT32_MAX, UINT32_MAX, []⟩, [], []⟩

/-- One iteration (processor `i`) of the build loop, in source order:
index bumps, processor topology fields, the core block, the package block,
the two lookup-table stores, then the cache blocks — with the L1I block
duplicated exactly as in the source (lines 326-373). -/
def buildStep (normalize : String → String) (i : Nat) (s : BuildState) (p : X86Processor) :
    BuildState :=
  let apic_id := p.topology.apic_id
  let core_id := mask_off apic_id p.topology.thread_bits_length p.topology.thread_bits_offset
  let newCore := core_id ≠ s.last_core_id
  let core_index := if newCore then (s.core_index + 1) % 2 ^ 32 else s.core_index
  let package_id := mask_off core_id p.topology.core_bits_length p.topology.core_bits_offset
  let newPackage := package_id ≠ s.last_package_id
  let package_index := if newPackage then (s.package_index + 1) % 2 ^ 32 else s.package_index
  -- a new package index reaches a fresh, zeroed calloc slot
  let packages := if newPackage then s.packages ++ [zeroPackage] else s.packages
  -- core block
  let cores := if newCore then
      s.cores ++ [⟨i, 1, core_id, package_index, p.vendor, p.uarch, p.cpuid⟩]
    else
      updateLast (fun c => { c with processor_count := c.processor_count + 1 }) s.cores
  let packages := if newCore then
      updateLast (fun q => { q with core_count := q.core_count + 1 }) packages
    else packages
  let last_core_id := if newCore then core_id else s.last_core_id
  -- package block
  let packages := if newPackage then
      updateLast (fun q =>
        { q with
          processor_start := i
          processor_count := 1
          core_start := core_index
          name := normalize p.brand_string }) packages
    else
      updateLast (fun q => { q with processor_count := q.processor_count + 1 }) packages
  let last_package_id := if newPackage then package_id else s.last_package_id
  -- cache blocks; the L1I block appears twice in the source
  let r1 := cacheStep i apic_id p.cache.l1i s.l1i none
  let r1 := cacheStep i apic_id p.cache.l1i r1.1 r1.2
  let r2 := cacheStep i apic_id p.cache.l1d s.l1d none
  let r3 := cacheStep i apic_id p.cache.l2 s.l2 none
  let r4 := cacheStep i apic_id p.cache.l3 s.l3 none
  let r5 := cacheStep i apic_id p.cache.l4 s.l4 none
  let proc : PubProcessor :=
    ⟨(apic_id >>> p.topology.thread_bits_offset) &&& bit_mask p.topology.thread_bits_length,
     core_index, package_index, p.linux_id, apic_id, r1.2, r2.2, r3.2, r4.2, r5.2⟩
  ⟨core_index, package_index, last_core_id, last_package_id,
   s.processors ++ [proc], cores, packages, r1.1, r2.1, r3.1, r4.1, r5.1,
   s.cpu_to_processor_stores ++ [(p.linux_id, i)],
   s.cpu_to_core_stores ++ [(p.linux_id, core_index)]⟩

/-- The build loop over processors `i, i+1, ...`. -/
def buildGo (normalize : String → String) : Nat → BuildState → List X86Processor → BuildState
  | _, s, [] => s
  | i, s, p :: rest => buildGo normalize (i + 1) (buildStep normalize i s p) rest

/-- The whole build pass (second scan) over the sorted descriptor array. -/
def buildPass (normalize : String → String) (ps : List X86Processor) : BuildState :=
  buildGo normalize 0 initBuildState ps

/-- The stores into `linux_cpu_to_processor_map` all fall inside its
`processors_count`-entry allocation. -/
def processorMapStoresInBounds (b : BuildState) (processors_count : Nat) : Prop :=
  ∀ e ∈ b.cpu_to_processor_stores, e.1 < processors_count

/-- The stores into `linux_cpu_to_core_map` all fall inside its
`cores_count`-entry allocation. -/
def coreMapStoresInBounds (b : BuildState) (cores_count : Nat) : Prop :=
  ∀ e ∈ b.cpu_to_core_stores, e.1 < cores_count

/-- Number of positions at which a list differs from its predecessor, the
predecessor of the head being `last`; this is exactly how the counting
pass counts objects for the core and package keys. -/
def transitions (last : Nat) : List Nat → Nat
  | [] => 0
  | x :: xs => (if x ≠ last then 1 else 0) + transitions x xs

/-- Names for the eleven local allocations of `cpuinfo_x86_linux_init`. -/
inductive Alloc where
  | x86_processors
  | processors
  | cpu_to_processor_map
  | cpu_to_core_map
  | cores
  | packages
  | l1i
  | l1d
  | l2
  | l3
  | l4
deriving DecidableEq

/-- The eleven local pointer variables of `cpuinfo_x86_linux_init`; a field
is `none` while the pointer is NULL and `some` once it holds an
allocation (content elided: only nullness governs `free`). -/
structure Locals where
  linux_cpu_to_processor_map : Option Unit
  linux_cpu_to_core_map : Option Unit
  x86_processors : Option Unit
  processors : Option Unit
  cores : Option Unit
  packages : Option Unit
  l1i : Option Unit
  l1d : Option Unit
  l2 : Option Unit
  l3 : Option Unit
  l4 : Option Unit
deriving DecidableEq

/-- All local pointers start out NULL (lines 118-128). -/
def emptyLocals : Locals :=
  ⟨none, none, none, none, none, none, none, none, none, none, none⟩

/-- The `free` calls of the `cleanup` block (lines 511-521): each non-NULL
local pointer is released, in source order. -/
def freeOrder (l : Locals) : List Alloc :=
  (if l.linux_cpu_to_processor_map.isSome then [Alloc.cpu_to_processor_map] else []) ++
  (if l.linux_cpu_to_core_map.isSome then [Alloc.cpu_to_core_map] else []) ++
  (if l.x86_processors.isSome then [Alloc.x86_processors] else []) ++
  (if l.processors.isSome then [Alloc.processors] else []) ++
  (if l.cores.isSome then [Alloc.cores] else []) ++
  (if l.packages.isSome then [Alloc.packages] else []) ++
  (if l.l1i.isSome then [Alloc.l1i] else []) ++
  (if l.l1d.isSome then [Alloc.l1d] else []) ++
  (if l.l2.isSome then [Alloc.l2] else []) ++
  (if l.l3.isSome then [Alloc.l3] else []) ++
  (if l.l4.isSome then [Alloc.l4] else [])

/-- The process-wide published state: the globals assigned by the commit
block (lines 476-496).  Array pointers are `none` while NULL; the two
lookup tables are published as their store logs. -/
structure GlobalState where
  linux_cpu_to_processor_map : Option (List (Nat × Nat))
  linux_cpu_to_core_map : Option (List (Nat × Nat))
  processors : Option (List PubProcessor)
  cores : Option (List BuildCore)
  packages : Option (List BuildPackage)
  cache_1i : Option (List BuildCache)
  cache_1d : Option (List BuildCache)
  cache_2 : Option (List BuildCache)
  cache_3 : Option (List BuildCache)
  cache_4 : Option (List BuildCache)
  processors_count : Nat
  cores_count : Nat
  packages_count : Nat
  cache_count_1i : Nat
  cache_count_1d : Nat
  cache_count_2 : Nat
  cache_count_3 : Nat
  cache_count_4 : Nat
deriving DecidableEq

/-- Oracle for the construction's external calls: whether reading the
affinity mask succeeds, whether pinning to the `i`-th processor succeeds,
whether each of the allocations succeeds, and what the external describer
(`cpuinfo_x86_init_processor`) reports for the `i`-th iteration. -/
structure InitOracle where
  getaffinity_ok : Bool
  setaffinity_ok : Nat → Bool
  alloc_x86_ok : Bool
  alloc_processors_ok : Bool
  alloc_map_processor_ok : Bool
  alloc_map_core_ok : Bool
  alloc_cores_ok : Bool
  alloc_packages_ok : Bool
  alloc_l1i_ok : Bool
  alloc_l1d_ok : Bool
  alloc_l2_ok : Bool
  alloc_l3_ok : Bool
  alloc_l4_ok : Bool
  describe : Nat → X86Processor

/-- The collection loop (lines 156-172): pin to each of the present and
possible cpu ids in ascending order and describe the processor, tagging it
with its OS id; a pinning failure aborts the whole collection. -/
def collect (o : InitOracle) : List (Nat × Nat) → Option (List X86Processor)
  | [] => some []
  | (i, bit) :: rest =>
    if o.setaffinity_ok i then
      (collect o rest).map (fun l => { o.describe i with linux_id := bit } :: l)
    else
      none

/-- The commit block (lines 476-496): publish every array, both lookup
tables and all counts; a cache level whose count is zero was never
allocated and its NULL pointer is published. -/
def publishState (b : BuildState) (cnt : CountState) (processors_count : Nat) : GlobalState :=
  ⟨some b.cpu_to_processor_stores, some b.cpu_to_core_stores,
   some b.processors, some b.cores, some b.packages,
   if cnt.l1i_count ≠ 0 then some b.l1i.records else none,
   if cnt.l1d_count ≠ 0 then some b.l1d.records else none,
   if cnt.l2_count ≠ 0 then some b.l2.records else none,
   if cnt.l3_count ≠ 0 then some b.l3.records else none,
   if cnt.l4_count ≠ 0 then some b.l4.records else none,
   processors_count, cnt.cores_count, cnt.packages_count,
   cnt.l1i_count, cnt.l1d_count, cnt.l2_count, cnt.l3_count, cnt.l4_count⟩

/-- Result of a run of the construction, before the affinity-restoration
step: the resulting global state, the allocations made during the attempt,
the `free` calls of the cleanup block, whether the cleanup block (which
restores the affinity mask) was reached, and whether the commit happened. -/
structure InitCoreResult where
  state : GlobalState
  allocated : List Alloc
  freed : List Alloc
  restore_attempted : Bool
  success : Bool
deriving DecidableEq

/-- A `goto cleanup` exit: globals untouched, every non-NULL local freed. -/
def cleanupResult (g : GlobalState) (loc : Locals) (allocated : List Alloc) : InitCoreResult :=
  ⟨g, allocated, freeOrder loc, true, false⟩

/-- Mark one named local pointer as allocated. -/
def setLocal (loc : Locals) : Alloc → Locals
  | Alloc.x86_processors => { loc with x86_processors := some () }
  | Alloc.processors => { loc with processors := some () }
  | Alloc.cpu_to_processor_map => { loc with linux_cpu_to_processor_map := some () }
  | Alloc.cpu_to_core_map => { loc with linux_cpu_to_core_map := some () }
  | Alloc.cores => { loc with cores := some () }
  | Alloc.packages => { loc with packages := some () }
  | Alloc.l1i => { loc with l1i := some () }
  | Alloc.l1d => { loc with l1d := some () }
  | Alloc.l2 => { loc with l2 := some () }
  | Alloc.l3 => { loc with l3 := some () }
  | Alloc.l4 => { loc with l4 := some () }

/-- Read one named local pointer. -/
def localGet (loc : Locals) : Alloc → Option Unit
  | Alloc.x86_processors => loc.x86_processors
  | Alloc.processors => loc.processors
  | Alloc.cpu_to_processor_map => loc.linux_cpu_to_processor_map
  | Alloc.cpu_to_core_map => loc.linux_cpu_to_core_map
  | Alloc.cores => loc.cores
  | Alloc.packages => loc.packages
  | Alloc.l1i => loc.l1i
  | Alloc.l1d => loc.l1d
  | Alloc.l2 => loc.l2
  | Alloc.l3 => loc.l3
  | Alloc.l4 => loc.l4

/-- The five conditional cache-array allocations (lines 223-262), in source
order.  Each triple holds the level's count, whether its `calloc` would
succeed, and the level's name: a level with count zero is skipped (left
NULL, not an error), a failing allocation aborts with the locals and
allocation log as they stand, and a successful one records the allocation
and moves on. -/
def allocCaches : List (Nat × Bool × Alloc) → Locals → List Alloc →
    Except (Locals × List Alloc) (Locals × List Alloc)
  | [], loc, al => Except.ok (loc, al)
  | c :: rest, loc, al =>
    if c.1 ≠ 0 then
      if c.2.1 = false then Except.error (loc, al)
      else allocCaches rest (setLocal loc c.2.2) (al ++ [c.2.2])
    else allocCaches rest loc al

/-- Insert one descriptor into a list sorted by ascending APIC id. -/
def insertSorted (p : X86Processor) : List X86Processor → List X86Processor
  | [] => [p]
  | q :: t =>
    if p.topology.apic_id ≤ q.topology.apic_id then p :: q :: t
    else q :: insertSorted p t

/-- The `qsort` call with `cmp_x86_processor_by_apic_id`: order the
descriptors by ascending APIC id (descriptors with equal APIC ids may end
up in arbitrary relative order, which the interface permits). -/
def sortByApic (ps : List X86Processor) : List X86Processor :=
  ps.foldr insertSorted []

/-- The sorted descriptor array a fully successful run works on: the
collected descriptors ordered by ascending APIC id. -/
def initSorted (o : InitOracle) (cpus : List Nat) : List X86Processor :=
  sortByApic ((collect o cpus.enum).getD [])

/-- Embedding of `cpuinfo_x86_linux_init` up to (but not including) the
affinity-restoration call of the cleanup block: the sequence of fallible
steps in source order, each failure jumping to cleanup with the locals
allocated so far, and the commit block on full success (after which every
local except the scratch `x86_processors` has been nulled, lines 498-503,
so cleanup frees only the scratch array). -/
def initCore (normalize : String → String) (o : InitOracle) (cpus : List Nat)
    (g : GlobalState) : InitCoreResult :=
  if o.getaffinity_ok = false then ⟨g, [], [], false, false⟩ else
  if o.alloc_x86_ok = false then cleanupResult g emptyLocals [] else
  match collect o cpus.enum with
  | none => cleanupResult g { emptyLocals with x86_processors := some () } [Alloc.x86_processors]
  | some collected =>
  let sorted := sortByApic collected
  let loc : Locals := { emptyLocals with x86_processors := some () }
  if o.alloc_processors_ok = false then cleanupResult g loc [Alloc.x86_processors] else
  let loc := { loc with processors := some () }
  let al := [Alloc.x86_processors, Alloc.processors]
  let cnt := cpuinfo_x86_count_objects sorted
  if o.alloc_map_processor_ok = false then cleanupResult g loc al else
  let loc := { loc with linux_cpu_to_processor_map := some () }
  let al := al ++ [Alloc.cpu_to_processor_map]
  if o.alloc_map_core_ok = false then cleanupResult g loc al else
  let loc := { loc with linux_cpu_to_core_map := some () }
  let al := al ++ [Alloc.cpu_to_core_map]
  if o.alloc_cores_ok = false then cleanupResult g loc al else
  let loc := { loc with cores := some () }
  let al := al ++ [Alloc.cores]
  if o.alloc_packages_ok = false then cleanupResult g loc al else
  let loc := { loc with packages := some () }
  let al := al ++ [Alloc.packages]
  match allocCaches
      [(cnt.l1i_count, o.alloc_l1i_ok, Alloc.l1i), (cnt.l1d_count, o.alloc_l1d_ok, Alloc.l1d),
       (cnt.l2_count, o.alloc_l2_ok, Alloc.l2), (cnt.l3_count, o.alloc_l3_ok, Alloc.l3),
       (cnt.l4_count, o.alloc_l4_ok, Alloc.l4)] loc al with
  | Except.error la => cleanupResult g la.1 la.2
  | Except.ok la =>
    ⟨publishState (buildPass normalize sorted) cnt cpus.length, la.2,
     freeOrder { emptyLocals with x86_processors := some () }, true, true⟩

/-- Full result of the construction, including the best-effort affinity
restoration of the cleanup block. -/
structure InitResult where
  state : GlobalState
  allocated : List Alloc
  freed : List Alloc
  restore_attempted : Bool
  warned : Bool
  success : Bool
deriving DecidableEq

/-- Embedding of `cpuinfo_x86_linux_init`.  The cleanup block calls
`sched_setaffinity(&old_affinity)` whenever it is reached; its result
(`restore_ok`) is only ever used to decide whether a warning is logged. -/
def cpuinfo_x86_linux_init (normalize : String → String) (o : InitOracle)
    (restore_ok : Bool) (cpus : List Nat) (g : GlobalState) : InitResult :=
  let c := initCore normalize o cpus g
  ⟨c.state, c.allocated, c.freed, c.restore_attempted,
   c.restore_attempted && !restore_ok, c.success⟩

/-- Everything about a run except the warning fields: the resulting global
state, the allocation and free logs, and whether the construction
succeeded. -/
def InitResult.outcome (r : InitResult) : GlobalState × List Alloc × List Alloc × Bool :=
  (r.state, r.allocated, r.freed, r.success)

/-- A cache level that is absent (size 0). -/
def noCache : CacheInfo := ⟨0, 0, 0, 0, 0, 0, 0⟩

/-- A present cache level of the given size whose sharing domain covers the
low `bits` bits of the APIC id. -/
def mkCache (size bits : Nat) : CacheInfo := ⟨size, 2, 64, 1, 64, 1, bits⟩

/-- All five cache levels absent. -/
def noCaches : X86Caches := ⟨noCache, noCache, noCache, noCache, noCache⟩

/-- A concrete descriptor with the given APIC id, thread/core field
offsets and lengths, OS logical id, and cache geometry. -/
def mkProc (apic toff tlen coff clen lid : Nat) (c : X86Caches) : X86Processor :=
  ⟨⟨apic, toff, tlen, coff, clen⟩, c, 0, 0, 0, "brand", lid⟩

/-- Three sorted descriptors whose L1D levels report
(size 1, sharing id 0), (size 0), (size 1, sharing id 0): two disjoint runs
of the same sharing id separated by an absent level. -/
def psL1dGap : List X86Processor :=
  [mkProc 0 0 0 0 0 0 ⟨noCache, mkCache 1 2, noCache, noCache, noCache⟩,
   mkProc 1 0 0 0 0 1 noCaches,
   mkProc 2 0 0 0 0 2 ⟨noCache, mkCache 1 2, noCache, noCache, noCache⟩]

/-- A single descriptor whose only present cache level is L1I. -/
def psOneL1i : List X86Processor :=
  [mkProc 0 0 0 0 0 0 ⟨mkCache 1 0, noCache, noCache, noCache, noCache⟩]

/-- A single descriptor whose only present cache level is L1D. -/
def psOneL1d : List X86Processor :=
  [mkProc 0 0 0 0 0 0 ⟨noCache, mkCache 1 0, noCache, noCache, noCache⟩]

/-- The four descriptors of the spec scenario: APIC ids 0..3, thread field
of length 1 at bit 0, core field of length 1 at bit 1, identical package
bits, no caches. -/
def psScenario : List X86Processor :=
  [mkProc 0 0 1 1 1 0 noCaches, mkProc 1 0 1 1 1 1 noCaches,
   mkProc 2 0 1 1 1 2 noCaches, mkProc 3 0 1 1 1 3 noCaches]

/-- Four sorted descriptors whose thread field sits at bit 1 (not bit 0):
the derived core-grouping ids alternate 0,1,0,1. -/
def psThreadBit1 : List X86Processor :=
  [mkProc 0 1 1 0 0 0 noCaches, mkProc 1 1 1 0 0 1 noCaches,
   mkProc 2 1 1 0 0 2 noCaches, mkProc 3 1 1 0 0 3 noCaches]

/-- Two SMT descriptors of one core (APIC ids 0 and 1, thread field of
length 1 at bit 0), with dense OS logical ids 0 and 1. -/
def psOneCoreSmt : List X86Processor :=
  [mkProc 0 0 1 1 1 0 noCaches, mkProc 1 0 1 1 1 1 noCaches]

/-- A describer that reports APIC id `i` with thread field of length 1 at
bit 0 and core field of length 1 at bit 1, no caches. -/
def describeBasic : Nat → X86Processor := fun i => mkProc i 0 1 1 1 0 noCaches

/-- An oracle under which every external call succeeds. -/
def oracleAllOk : InitOracle :=
  ⟨true, fun _ => true, true, true, true, true, true, true, true, true, true, true, true,
   describeBasic⟩

/-- The all-ok oracle with the `cores` allocation forced to fail. -/
def oracleFailCores : InitOracle := { oracleAllOk with alloc_cores_ok := false }

/-- The process-global state before any initialization: every pointer NULL
and every count zero. -/
def emptyGlobal : GlobalState :=
  ⟨none, none, none, none, none, none, none, none, none, none, 0, 0, 0, 0, 0, 0, 0, 0⟩

/-- Bitwise AND with a low-bits mask is reduction modulo the power of two. -/
theorem land_two_pow_sub_one (a n : Nat) : a &&& (2 ^ n - 1) = a % 2 ^ n := by
  apply Nat.eq_of_testBit_eq
  intro i
  rw [Nat.testBit_land, Nat.testBit_two_pow_sub_one, Nat.testBit_mod_two_pow]
  exact Bool.and_comm _ _

/-- For field lengths below the word size, `bit_mask` does not wrap. -/
theorem bit_mask_eq (n : Nat) (hn : n < 32) : bit_mask n = 2 ^ n - 1 := by
  have h2 : 2 ^ n < 2 ^ 32 := Nat.pow_lt_pow_right (by norm_num) hn
  have h1 : 1 ≤ 2 ^ n := Nat.one_le_two_pow
  unfold bit_mask
  rw [Nat.mod_eq_of_lt h2]
  have he : 2 ^ n + (2 ^ 32 - 1) = (2 ^ n - 1) + 2 ^ 32 := by omega
  rw [he, Nat.add_mod_right, Nat.mod_eq_of_lt (by omega)]

/-- Masking with a zero-length field leaves a 32-bit identifier unchanged. -/
theorem mask_off_zero_len (id off : Nat) (hid : id < 2 ^ 32) : mask_off id 0 off = id := by
  have hb : bit_mask 0 = 0 := by
    unfold bit_mask
    norm_num
  unfold mask_off not32 UINT32_MAX
  rw [hb, Nat.zero_shiftLeft, Nat.zero_mod, Nat.xor_zero, land_two_pow_sub_one,
    Nat.mod_eq_of_lt hid]

/-- C8: for every field length up to 31 the mask helper returns the low-bits
mask `2^n - 1` (in particular `bit_mask 0 = 0`), and masking any 32-bit
identifier with a zero-length field at any offset returns the identifier
unchanged. -/
theorem c8_bit_mask_values (n : Nat) (hn : n < 32) (id off : Nat) (hid : id < 2 ^ 32) :
    bit_mask n = 2 ^ n - 1 ∧ mask_off id 0 off = id :=
  ⟨bit_mask_eq n hn, mask_off_zero_len id off hid⟩

/-- C8 witness: the mask theorem instantiated at field length 5 and
identifier 7 with field offset 3. -/
theorem c8_bit_mask_values_witness :
    5 < 32 ∧ 7 < 2 ^ 32 ∧ (bit_mask 5 = 2 ^ 5 - 1 ∧ mask_off 7 0 3 = 7) :=
  ⟨by norm_num, by norm_num, c8_bit_mask_values 5 (by norm_num) 7 3 (by norm_num)⟩

/-- C2: the counting pass does NOT reset the per-level sentinel when a
descriptor's cache size is zero, contrary to the claim.  On the descriptor
sequence (L1D size>0, id 0), (size 0), (size>0, id 0) the code merges the
two disjoint runs and returns one L1D cache object, while the reset the
spec prescribes (modelled by `countL1dSpec`) yields two. -/
theorem c2_count_no_reset_eval :
    (cpuinfo_x86_count_objects psL1dGap).l1d_count = 1 ∧ countL1dSpec psL1dGap = 2 := by
  decide

/-- C3: the counts of the counting pass do not always equal the number of
records the build pass initializes.  On the (size>0, id 0), (size 0),
(size>0, id 0) L1D sequence the counting pass returns 1 but the build pass
initializes 2 L1D records, so the second record falls outside the 1-entry
array pre-sized from the count. -/
theorem c3_count_build_mismatch_eval :
    (cpuinfo_x86_count_objects psL1dGap).l1d_count = 1 ∧
    (buildPass (fun s => s) psL1dGap).l1d.records.length = 2 := by
  decide

/-- C4: the duplicated L1I block of the build pass doubles each L1I
record's `processor_count`.  Over a single descriptor with a present L1I
cache, the unique L1I record reports processor range [0, 2) although only
processor 0 exists, so the record's `processor_count` is not the number of
processors in its range and the union of ranges is not the set of
L1I-bearing processor indices. -/
theorem c4_l1i_double_count_eval :
    (buildPass (fun s => s) psOneL1i).l1i.records.map
      (fun r => (r.processor_start, r.processor_count)) = [(0, 2)] ∧
    psOneL1i.length = 1 := by
  decide

/-- C5: the per-level cache reference is assigned BEFORE the record index
is advanced, so when a processor starts a new cache record the published
reference designates the previous slot — for the very first record, slot
`UINT32_MAX`, outside the array.  Over a single descriptor with a present
L1D cache the processor's L1D reference is `some UINT32_MAX` although the
only L1D record lives at index 0. -/
theorem c5_dangling_cache_ref_eval :
    (buildPass (fun s => s) psOneL1d).processors.map (fun q => q.cache_l1d) =
      [some UINT32_MAX] ∧
    (buildPass (fun s => s) psOneL1d).l1d.records.length = 1 ∧
    ¬ UINT32_MAX < (buildPass (fun s => s) psOneL1d).l1d.records.length := by
  decide

/-- C7: over the four sorted descriptors with APIC ids 0..3, thread field
of length 1 at bit 0 and core field of length 1 at bit 1, the build pass
produces exactly two cores with core ids 0 and 2, processor ranges [0, 2)
and [2, 4), both referencing package 0, and exactly one package with
`core_count` 2; the counting pass agrees (2 cores, 1 package). -/
theorem c7_scenario :
    (buildPass (fun s => s) psScenario).cores.map
      (fun c => (c.processor_start, c.processor_count, c.core_id, c.package)) =
      [(0, 2, 0, 0), (2, 2, 2, 0)] ∧
    (buildPass (fun s => s) psScenario).packages.map
      (fun q => (q.processor_start, q.processor_count, q.core_start, q.core_count)) =
      [(0, 4, 0, 2)] ∧
    (cpuinfo_x86_count_objects psScenario).cores_count = 2 ∧
    (cpuinfo_x86_count_objects psScenario).packages_count = 1 := by
  decide

/-- C10: the stores into the two lookup tables are not always in bounds.
Over two SMT descriptors of a single core with dense OS ids 0 and 1, the
processor-map stores are in bounds of the `processors_count`-entry
allocation, but `linux_cpu_to_core_map` is allocated with only
`cores_count = 1` entries and the build pass stores at index 1. -/
theorem c10_core_map_oob_eval :
    processorMapStoresInBounds (buildPass (fun s => s) psOneCoreSmt) psOneCoreSmt.length ∧
    (cpuinfo_x86_count_objects psOneCoreSmt).cores_count = 1 ∧
    ¬ coreMapStoresInBounds (buildPass (fun s => s) psOneCoreSmt)
        (cpuinfo_x86_count_objects psOneCoreSmt).cores_count := by
  unfold processorMapStoresInBounds coreMapStoresInBounds
  decide

/-- C6 (counterexample): over a descriptor array sorted ascending by APIC
id whose thread field sits at bit 1, the derived core-grouping ids
alternate 0,1,0,1 — descriptors with core-grouping id 0 do not occupy one
contiguous run — and the counting pass reports 4 cores although only 2
distinct core-grouping ids occur. -/
theorem c6_counterexample :
    List.Chain' (fun a b => a.topology.apic_id ≤ b.topology.apic_id) psThreadBit1 ∧
    psThreadBit1.map core_id_of = [0, 1, 0, 1] ∧
    (cpuinfo_x86_count_objects psThreadBit1).cores_count = 4 ∧
    (psThreadBit1.map core_id_of).toFinset.card = 2 := by
  refine ⟨?_, by decide, by decide, by decide⟩
  simp [psThreadBit1, mkProc, List.chain'_cons]

theorem countL1i_cores (s : CountState) (apic : Nat) (c : CacheInfo) :
    (countL1i s apic c).cores_count = s.cores_count ∧
    (countL1i s apic c).last_core_id = s.last_core_id := by
  unfold countL1i
  split
  · by_cases h : cache_group_id apic c.apic_bits ≠ s.last_l1i_id <;> simp [h]
  · simp

theorem countL1d_cores (s : CountState) (apic : Nat) (c : CacheInfo) :
    (countL1d s apic c).cores_count = s.cores_count ∧
    (countL1d s apic c).last_core_id = s.last_core_id := by
  unfold countL1d
  split
  · by_cases h : cache_group_id apic c.apic_bits ≠ s.last_l1d_id <;> simp [h]
  · simp

theorem countL2_cores (s : CountState) (apic : Nat) (c : CacheInfo) :
    (countL2 s apic c).cores_count = s.cores_count ∧
    (countL2 s apic c).last_core_id = s.last_core_id := by
  unfold countL2
  split
  · by_cases h : cache_group_id apic c.apic_bits ≠ s.last_l2_id <;> simp [h]
  · simp

theorem countL3_cores (s : CountState) (apic : Nat) (c : CacheInfo) :
    (countL3 s apic c).cores_count = s.cores_count ∧
    (countL3 s apic c).last_core_id = s.last_core_id := by
  unfold countL3
  split
  · by_cases h : cache_group_id apic c.apic_bits ≠ s.last_l3_id <;> simp [h]
  · simp

theorem countL4_cores (s : CountState) (apic : Nat) (c : CacheInfo) :
    (countL4 s apic c).cores_count = s.cores_count ∧
    (countL4 s apic c).last_core_id = s.last_core_id := by
  unfold countL4
  split
  · by_cases h : cache_group_id apic c.apic_bits ≠ s.last_l4_id <;> simp [h]
  · simp

theorem countPackages_cores (s : CountState) (package_id : Nat) :
    (countPackages s package_id).cores_count = s.cores_count ∧
    (countPackages s package_id).last_core_id = s.last_core_id := by
  unfold countPackages
  split
  all_goals simp

theorem countStep_cores_count (s : CountState) (p : X86Processor) :
    (countStep s p).cores_count =
      s.cores_count + (if core_id_of p ≠ s.last_core_id then 1 else 0) := by
  simp only [countStep]
  rw [(countL4_cores _ _ _).1, (countL3_cores _ _ _).1, (countL2_cores _ _ _).1,
    (countL1d_cores _ _ _).1, (countL1i_cores _ _ _).1, (countPackages_cores _ _).1]
  unfold countCores core_id_of
  split
  all_goals simp_all

theorem countStep_last_core_id (s : CountState) (p : X86Processor) :
    (countStep s p).last_core_id = core_id_of p := by
  simp only [countStep]
  rw [(countL4_cores _ _ _).2, (countL3_cores _ _ _).2, (countL2_cores _ _ _).2,
    (countL1d_cores _ _ _).2, (countL1i_cores _ _ _).2, (countPackages_cores _ _).2]
  unfold countCores core_id_of
  split
  all_goals simp_all

theorem count_fold_cores (ps : List X86Processor) (s : CountState) :
    (ps.foldl countStep s).cores_count =
      s.cores_count + transitions s.last_core_id (ps.map core_id_of) := by
  induction ps generalizing s with
  | nil => simp [transitions]
  | cons p t ih =>
    rw [List.foldl_cons, ih, List.map_cons]
    simp only [transitions]
    rw [countStep_cores_count, countStep_last_core_id]
    split <;> omega

theorem mask_off_offset0 (a L : Nat) (ha : a < 2 ^ 32) (hL : L < 32) :
    mask_off a L 0 = 2 ^ L * (a / 2 ^ L) := by
  have hbm : bit_mask L = 2 ^ L - 1 := bit_mask_eq L hL
  have hlt : (2:Nat) ^ L - 1 < 2 ^ 32 := by
    have := Nat.pow_lt_pow_right (a := 2) (by norm_num) hL
    omega
  unfold mask_off not32 UINT32_MAX
  rw [hbm, Nat.shiftLeft_zero, Nat.mod_eq_of_lt hlt]
  rw [show (2:Nat) ^ L * (a / 2 ^ L) = (a >>> L) <<< L by
    rw [Nat.shiftRight_eq_div_pow, Nat.shiftLeft_eq]; ring]
  apply Nat.eq_of_testBit_eq
  intro i
  rw [Nat.testBit_land, Nat.testBit_xor, Nat.testBit_two_pow_sub_one,
    Nat.testBit_two_pow_sub_one, Nat.testBit_shiftLeft, Nat.testBit_shiftRight]
  by_cases h1 : i < L
  · have h2 : i < 32 := lt_trans h1 hL
    simp [h1, h2, Nat.not_le.2 h1]
  · by_cases h2 : i < 32
    · have h3 : L + (i - L) = i := by omega
      simp [h1, h2, Nat.not_lt.1 h1, h3]
    · have hge : L ≤ i := by omega
      have h3 : L + (i - L) = i := by omega
      have hz : a.testBit i = false :=
        Nat.testBit_eq_false_of_lt
          (lt_of_lt_of_le ha (Nat.pow_le_pow_right (by norm_num) (by omega)))
      simp [h1, h2, hge, h3, hz]

theorem card_insert_erase (s : Finset Nat) (a : Nat) :
    (insert a s).card = (s.erase a).card + 1 := by
  by_cases h : a ∈ s
  · rw [Finset.insert_eq_self.2 h, Finset.card_erase_of_mem h]
    have := Finset.card_pos.2 ⟨a, h⟩
    omega
  · rw [Finset.card_insert_of_not_mem h, Finset.erase_eq_of_not_mem h]

theorem filter_ne_toFinset (t : List Nat) (y : Nat) :
    (t.filter (fun a => a ≠ y)).toFinset = t.toFinset.erase y := by
  rw [List.toFinset_filter]
  rw [show (Finset.filter (fun a => decide (a ≠ y) = true) t.toFinset) =
        Finset.filter (fun a => a ≠ y) t.toFinset from by
    apply Finset.filter_congr
    intro a _
    simp]
  exact Finset.filter_ne' _ _

theorem transitions_chain_aux (l : List Nat) (x : Nat)
    (hchain : List.Chain' (· ≤ ·) (x :: l)) :
    transitions x l = ((l.filter (fun a => a ≠ x)).toFinset.card) := by
  induction l generalizing x with
  | nil => simp [transitions]
  | cons y t ih =>
    have hxy : x ≤ y := (List.chain'_cons.1 hchain).1
    have htail : List.Chain' (· ≤ ·) (y :: t) := (List.chain'_cons.1 hchain).2
    have hyt : ∀ a ∈ t, y ≤ a := by
      haveI : IsTrans Nat (· ≤ ·) := ⟨fun _ _ _ => Nat.le_trans⟩
      exact (List.pairwise_cons.1 (List.chain'_iff_pairwise.1 htail)).1
    by_cases hx : y = x
    · subst hx
      have h0 : transitions y (y :: t) = transitions y t := by simp [transitions]
      rw [h0, ih y htail]
      have h1 : (y :: t).filter (fun a => a ≠ y) = t.filter (fun a => a ≠ y) := by
        rw [List.filter_cons]
        simp
      rw [h1]
    · have hxt : ∀ a ∈ t, a ≠ x := fun a ha => by
        have h5 := hyt a ha
        have h6 : x < y := lt_of_le_of_ne hxy (fun h => hx h.symm)
        omega
      have h0 : transitions x (y :: t) = 1 + transitions y t := by
        simp [transitions, hx]
      rw [h0, ih y htail]
      have hfilter : t.filter (fun a => a ≠ x) = t := by
        apply List.filter_eq_self.2
        intro a ha
        simp [hxt a ha]
      have h1 : (y :: t).filter (fun a => a ≠ x) = y :: t := by
        rw [List.filter_cons, if_pos (by simp [hx]), hfilter]
      rw [h1, List.toFinset_cons, card_insert_erase, filter_ne_toFinset]
      omega

theorem transitions_sentinel (l : List Nat) (s : Nat)
    (hs : ∀ a ∈ l, a ≠ s) (hchain : List.Chain' (· ≤ ·) l) :
    transitions s l = l.toFinset.card := by
  cases l with
  | nil => simp [transitions]
  | cons y t =>
    have hys : y ≠ s := hs y (by simp)
    have h0 : transitions s (y :: t) = 1 + transitions y t := by simp [transitions, hys]
    rw [h0, transitions_chain_aux t y hchain]
    rw [List.toFinset_cons, card_insert_erase, filter_ne_toFinset]
    omega

/-- C6 (amended): over descriptors sorted ascending by APIC id in which
the thread field sits at bit offset 0, has one common length below 32, the
APIC ids are 32-bit, and no derived core-grouping id collides with the
`UINT32_MAX` sentinel, descriptors with the same derived core-grouping id
do occupy one contiguous run and the counting pass returns exactly the
number of distinct core-grouping ids. -/
theorem c6_amended_contiguity_count (ps : List X86Processor) (L : Nat) (hL : L < 32)
    (hoff : ∀ p ∈ ps, p.topology.thread_bits_offset = 0)
    (hlen : ∀ p ∈ ps, p.topology.thread_bits_length = L)
    (hbound : ∀ p ∈ ps, p.topology.apic_id < 2 ^ 32)
    (hne : ∀ p ∈ ps, core_id_of p ≠ UINT32_MAX)
    (hsorted : List.Chain' (fun a b => a.topology.apic_id ≤ b.topology.apic_id) ps) :
    (∀ i j k : Fin ps.length, i ≤ j → j ≤ k →
      core_id_of (ps.get i) = core_id_of (ps.get k) →
      core_id_of (ps.get j) = core_id_of (ps.get i)) ∧
    (cpuinfo_x86_count_objects ps).cores_count = (ps.map core_id_of).toFinset.card := by
  have hId : ∀ p ∈ ps, core_id_of p = 2 ^ L * (p.topology.apic_id / 2 ^ L) := by
    intro p hp
    have := mask_off_offset0 p.topology.apic_id L (hbound p hp) hL
    unfold core_id_of
    rw [hlen p hp, hoff p hp]
    exact this
  haveI : IsTrans X86Processor (fun a b => a.topology.apic_id ≤ b.topology.apic_id) :=
    ⟨fun _ _ _ => Nat.le_trans⟩
  have hpair_apic : List.Pairwise (fun a b => a.topology.apic_id ≤ b.topology.apic_id) ps :=
    List.chain'_iff_pairwise.1 hsorted
  have hpair_core : List.Pairwise (fun a b => core_id_of a ≤ core_id_of b) ps := by
    refine List.Pairwise.imp_of_mem ?_ hpair_apic
    intro a b ha hb hab
    rw [hId a ha, hId b hb]
    exact Nat.mul_le_mul_left _ (Nat.div_le_div_right hab)
  constructor
  · intro i j k hij hjk hik
    have h1 : core_id_of (ps.get i) ≤ core_id_of (ps.get j) := by
      rcases Nat.eq_or_lt_of_le (show (i : Nat) ≤ (j : Nat) from hij) with h | h
      · have : i = j := Fin.ext h
        rw [this]
      · exact List.pairwise_iff_get.1 hpair_core i j h
    have h2 : core_id_of (ps.get j) ≤ core_id_of (ps.get k) := by
      rcases Nat.eq_or_lt_of_le (show (j : Nat) ≤ (k : Nat) from hjk) with h | h
      · have : j = k := Fin.ext h
        rw [this]
      · exact List.pairwise_iff_get.1 hpair_core j k h
    omega
  · have hchain_core : List.Chain' (· ≤ ·) (ps.map core_id_of) :=
      List.Pairwise.chain' ((List.pairwise_map).2 hpair_core)
    have hs : ∀ a ∈ ps.map core_id_of, a ≠ UINT32_MAX := by
      intro a ha
      rcases List.mem_map.1 ha with ⟨p, hp, rfl⟩
      exact hne p hp
    unfold cpuinfo_x86_count_objects
    rw [count_fold_cores]
    have h1 : initCountState.cores_count = 0 := rfl
    have h2 : initCountState.last_core_id = UINT32_MAX := rfl
    rw [h1, h2, transitions_sentinel _ _ hs hchain_core]
    omega


/-- C6 witness: the amended contiguity/count theorem instantiated at the
two-descriptor input with thread field of length 1 at bit 0. -/
theorem c6_amended_witness :
    (∀ p ∈ psOneCoreSmt, p.topology.thread_bits_offset = 0) ∧
    (∀ p ∈ psOneCoreSmt, p.topology.thread_bits_length = 1) ∧
    (∀ p ∈ psOneCoreSmt, p.topology.apic_id < 2 ^ 32) ∧
    (∀ p ∈ psOneCoreSmt, core_id_of p ≠ UINT32_MAX) ∧
    List.Chain' (fun a b => a.topology.apic_id ≤ b.topology.apic_id) psOneCoreSmt ∧
    ((∀ i j k : Fin psOneCoreSmt.length, i ≤ j → j ≤ k →
        core_id_of (psOneCoreSmt.get i) = core_id_of (psOneCoreSmt.get k) →
        core_id_of (psOneCoreSmt.get j) = core_id_of (psOneCoreSmt.get i)) ∧
      (cpuinfo_x86_count_objects psOneCoreSmt).cores_count =
        (psOneCoreSmt.map core_id_of).toFinset.card) := by
  have hchain : List.Chain' (fun a b => a.topology.apic_id ≤ b.topology.apic_id) psOneCoreSmt := by
    simp [psOneCoreSmt, mkProc, List.chain'_cons]
  exact ⟨by decide, by decide, by decide, by decide, hchain,
    c6_amended_contiguity_count psOneCoreSmt 1 (by decide) (by decide) (by decide) (by decide)
      (by decide) hchain⟩

theorem mem_ite_single (c : Prop) [Decidable c] (x a : Alloc) :
    (a ∈ (if c then [x] else [])) ↔ c ∧ a = x := by
  split <;> simp_all

theorem mem_freeOrder (loc : Locals) (a : Alloc) :
    a ∈ freeOrder loc ↔ (localGet loc a).isSome := by
  cases a <;>
    simp [freeOrder, localGet, mem_ite_single, List.mem_append]

theorem localGet_setLocal (loc : Locals) (t a : Alloc) :
    localGet (setLocal loc t) a = if a = t then some () else localGet loc a := by
  cases t <;> cases a <;> simp [setLocal, localGet]

theorem allocCaches_error_inv (specs : List (Nat × Bool × Alloc)) (loc : Locals)
    (al : List Alloc) (lf : Locals) (af : List Alloc)
    (h : allocCaches specs loc al = Except.error (lf, af))
    (hinv : ∀ a, a ∈ al ↔ a ∈ freeOrder loc) :
    ∀ a, a ∈ af ↔ a ∈ freeOrder lf := by
  induction specs generalizing loc al with
  | nil => simp [allocCaches] at h
  | cons c rest ih =>
    unfold allocCaches at h
    by_cases h1 : c.1 ≠ 0
    · rw [if_pos h1] at h
      by_cases h2 : c.2.1 = false
      · rw [if_pos h2] at h
        have h3 : loc = lf ∧ al = af := by
          have := h
          simp at this
          exact ⟨this.1, this.2⟩
        rw [← h3.1, ← h3.2]
        exact hinv
      · rw [if_neg h2] at h
        refine ih _ _ h ?_
        intro a
        rw [List.mem_append, mem_freeOrder, localGet_setLocal]
        by_cases ha : a = c.2.2
        · simp [ha]
        · simp only [ha, if_neg ha]
          rw [hinv a, mem_freeOrder]
          simp [ha]
    · rw [if_neg h1] at h
      exact ih _ _ h hinv

set_option maxHeartbeats 1000000 in
theorem initCore_rollback (normalize : String → String) (o : InitOracle) (cpus : List Nat)
    (g : GlobalState) :
    (initCore normalize o cpus g).success = false →
    (initCore normalize o cpus g).state = g ∧
    ∀ a, a ∈ (initCore normalize o cpus g).allocated ↔
          a ∈ (initCore normalize o cpus g).freed := by
  simp only [initCore]
  repeat' split
  all_goals intro hs
  all_goals first
    | (simp at hs
       done)
    | (refine ⟨rfl, fun a => ?_⟩
       cases a <;> simp [cleanupResult, freeOrder, emptyLocals]
       done)
    | (refine ⟨rfl, ?_⟩
       rename_i la heq
       exact allocCaches_error_inv _ _ _ la.1 la.2 heq
         (by intro a
             cases a <;> simp [freeOrder, emptyLocals]))

set_option maxHeartbeats 1000000 in
theorem initCore_publish (normalize : String → String) (o : InitOracle) (cpus : List Nat)
    (g : GlobalState) :
    (initCore normalize o cpus g).success = true →
    (initCore normalize o cpus g).state =
      publishState (buildPass normalize (initSorted o cpus))
        (cpuinfo_x86_count_objects (initSorted o cpus)) cpus.length ∧
    (initCore normalize o cpus g).freed = [Alloc.x86_processors] := by
  simp only [initCore]
  repeat' split
  all_goals intro hs
  all_goals first
    | (simp [cleanupResult] at hs
       done)
    | (refine ⟨?_, rfl⟩
       simp_all [initSorted])

set_option maxHeartbeats 1000000 in
theorem initCore_restore_attempted (normalize : String → String) (o : InitOracle)
    (cpus : List Nat) (g : GlobalState) (h : o.getaffinity_ok = true) :
    (initCore normalize o cpus g).restore_attempted = true := by
  simp only [initCore, h]
  repeat' split
  all_goals first
    | rfl
    | simp_all

/-- C1: whenever any step of the construction fails — reading the affinity
mask, pinning to a processor, or any allocation — the process-wide state is
exactly what it was before the call and every array allocated during the
attempt is freed by the cleanup block; and only on a fully successful run
is the complete snapshot (all arrays, counts and both lookup tables)
published, with only the scratch descriptor array freed. -/
theorem c1_commit_rollback (normalize : String → String) (o : InitOracle) (restore_ok : Bool)
    (cpus : List Nat) (g : GlobalState) :
    ((cpuinfo_x86_linux_init normalize o restore_ok cpus g).success = false →
      (cpuinfo_x86_linux_init normalize o restore_ok cpus g).state = g ∧
      ∀ a, a ∈ (cpuinfo_x86_linux_init normalize o restore_ok cpus g).allocated ↔
            a ∈ (cpuinfo_x86_linux_init normalize o restore_ok cpus g).freed) ∧
    ((cpuinfo_x86_linux_init normalize o restore_ok cpus g).success = true →
      (cpuinfo_x86_linux_init normalize o restore_ok cpus g).state =
        publishState (buildPass normalize (initSorted o cpus))
          (cpuinfo_x86_count_objects (initSorted o cpus)) cpus.length ∧
      (cpuinfo_x86_linux_init normalize o restore_ok cpus g).freed = [Alloc.x86_processors]) :=
  ⟨initCore_rollback normalize o cpus g, initCore_publish normalize o cpus g⟩

/-- C1 witness: the rollback theorem applied to a run over cpus 0 and 1 in
which the `cores` allocation fails. -/
theorem c1_commit_rollback_witness :
    (cpuinfo_x86_linux_init (fun s => s) oracleFailCores true [0, 1] emptyGlobal).success
      = false ∧
    (cpuinfo_x86_linux_init (fun s => s) oracleFailCores true [0, 1] emptyGlobal).state
      = emptyGlobal ∧
    ∀ a, a ∈ (cpuinfo_x86_linux_init (fun s => s) oracleFailCores true [0, 1]
                emptyGlobal).allocated ↔
          a ∈ (cpuinfo_x86_linux_init (fun s => s) oracleFailCores true [0, 1]
                emptyGlobal).freed := by
  have h := (c1_commit_rollback (fun s => s) oracleFailCores true [0, 1] emptyGlobal).1
    (by decide)
  exact ⟨by decide, h.1, h.2⟩

/-- C9: whenever the original affinity mask was read successfully, every
exit path — normal completion, allocation failure, pinning failure —
reaches the cleanup block's affinity-restoration call, and the result of
that call changes nothing about the run's outcome (published state,
allocation and free logs, success) beyond emitting a warning. -/
theorem c9_affinity_restore (normalize : String → String) (o : InitOracle) (b : Bool)
    (cpus : List Nat) (g : GlobalState) (h : o.getaffinity_ok = true) :
    (cpuinfo_x86_linux_init normalize o b cpus g).restore_attempted = true ∧
    (cpuinfo_x86_linux_init normalize o b cpus g).outcome =
      (cpuinfo_x86_linux_init normalize o true cpus g).outcome ∧
    (cpuinfo_x86_linux_init normalize o false cpus g).warned = true := by
  refine ⟨initCore_restore_attempted normalize o cpus g h, rfl, ?_⟩
  show (initCore normalize o cpus g).restore_attempted && !false = true
  rw [initCore_restore_attempted normalize o cpus g h]
  rfl

/-- C9 witness: the restoration theorem applied to a fully successful run
over cpus 0 and 1. -/
theorem c9_affinity_restore_witness :
    oracleAllOk.getaffinity_ok = true ∧
    ((cpuinfo_x86_linux_init (fun s => s) oracleAllOk false [0, 1]
        emptyGlobal).restore_attempted = true ∧
     (cpuinfo_x86_linux_init (fun s => s) oracleAllOk false [0, 1] emptyGlobal).outcome =
       (cpuinfo_x86_linux_init (fun s => s) oracleAllOk true [0, 1] emptyGlobal).outcome ∧
     (cpuinfo_x86_linux_init (fun s => s) oracleAllOk false [0, 1] emptyGlobal).warned
       = true) :=
  ⟨rfl, c9_affinity_restore (fun s => s) oracleAllOk false [0, 1] emptyGlobal rfl⟩

end Cpuinfo
